import Mathlib

/-!
Shallow embedding of the Veo 3 video-generator app (src/main.py).
The core is the long-running-operation polling loop (lines 129-153),
the artifact download-and-save step (lines 155-169), and the
session-state handling of the surrounding generation flow (lines 89-178).
-/

namespace Ved

/-- One generated asset returned by the remote service
(`operation.response.generated_videos` element); we track its byte size. -/
structure GeneratedVideo where
  size_bytes : Nat
deriving DecidableEq, Repr

/-- `operation.response` as used by the code: a list of generated videos. -/
structure OperationResponse where
  generated_videos : List GeneratedVideo
deriving DecidableEq, Repr

/-- A remote long-running operation handle (`operation` in src/main.py):
an opaque name, a done flag, and the response available once done. -/
structure Operation where
  name : String
  done : Bool
  response : OperationResponse
deriving DecidableEq, Repr

/-- A progress notification emitted to the UI:
`time_elapsed.text(...)` plus `progress_bar.progress(fraction)`
(src/main.py lines 133-142 and line 150). Fractions are modelled in ℚ. -/
structure ProgressEvent where
  elapsed : Nat
  fraction : ℚ
deriving DecidableEq, Repr

/-- The error taxonomy of the flow.  `indexError` stands for the Python
IndexError raised by `generated_videos[0]` on an empty list. -/
inductive ServiceError where
  | authenticationError
  | validationError
  | transientServiceError
  | fatalServiceError
  | emptyResultError
  | indexError
deriving DecidableEq, Repr

/-- The heuristic progress estimate of src/main.py lines 137-140:
`progress = min(elapsed / 60, 0.9)` if `elapsed < 60`, else `0.9`. -/
def progressEstimate (elapsed : Nat) : ℚ :=
  if elapsed < 60 then min ((elapsed : ℚ) / 60) (9 / 10) else 9 / 10

/-- Terminal state of the polling loop. -/
inductive PollOutcome where
  | completed (finalOp : Operation)
  | failed (e : ServiceError)
  | outOfResponses
deriving DecidableEq, Repr

/-- Observable trace of one run of the polling loop:
the progress events emitted inside the loop, the final `progress(1.0)`
event after the loop (absent when an exception aborts the loop), the
number of `client.operations.get` refresh calls, the number of
`time.sleep(10)` calls, the sequence of `operation.done` values checked
at the top of the loop, and the terminal outcome. -/
structure PollTrace where
  loopEvents : List ProgressEvent
  finalEvent : Option ProgressEvent
  refreshCalls : Nat
  sleepCalls : Nat
  doneObserved : List Bool
  outcome : PollOutcome
deriving DecidableEq, Repr

/-- The polling loop of src/main.py lines 132-150, driven by a finite
schedule of refresh responses (each either a refreshed operation or an
exception raised by the refresh call).  Each iteration checks
`operation.done`, emits a progress event at the current elapsed time,
sleeps 10 seconds, and refreshes; on loop exit it emits `progress(1.0)`.
An exhausted schedule models a run that never terminates. -/
def awaitCompletionAux (op : Operation)
    (responses : List (Except ServiceError Operation)) (elapsed : Nat) :
    PollTrace :=
  if op.done then
    { loopEvents := [], finalEvent := some ⟨elapsed, 1⟩, refreshCalls := 0,
      sleepCalls := 0, doneObserved := [true], outcome := .completed op }
  else
    match responses with
    | [] =>
      { loopEvents := [⟨elapsed, progressEstimate elapsed⟩], finalEvent := none,
        refreshCalls := 0, sleepCalls := 1, doneObserved := [false],
        outcome := .outOfResponses }
    | .error e :: _ =>
      { loopEvents := [⟨elapsed, progressEstimate elapsed⟩], finalEvent := none,
        refreshCalls := 1, sleepCalls := 1, doneObserved := [false],
        outcome := .failed e }
    | .ok op2 :: rest =>
      let t := awaitCompletionAux op2 rest (elapsed + 10)
      { loopEvents := ⟨elapsed, progressEstimate elapsed⟩ :: t.loopEvents,
        finalEvent := t.finalEvent, refreshCalls := t.refreshCalls + 1,
        sleepCalls := t.sleepCalls + 1, doneObserved := false :: t.doneObserved,
        outcome := t.outcome }

/-- `await_completion`: run the polling loop from elapsed time 0
(`start_time = time.time()`, src/main.py line 129). -/
def awaitCompletion (op : Operation)
    (responses : List (Except ServiceError Operation)) : PollTrace :=
  awaitCompletionAux op responses 0

/-- All progress events emitted during a run, in order. -/
def emittedEvents (t : PollTrace) : List ProgressEvent :=
  t.loopEvents ++ t.finalEvent.toList

/-- The saved artifact (spec data model `ArtifactRecord`): local path and
byte size of the file written by `generated_video.video.save(video_path)`. -/
structure ArtifactRecord where
  local_path : String
  size_bytes : Nat
deriving DecidableEq, Repr

/-- The download-and-save step of src/main.py lines 156-167:
`generated_video = operation.response.generated_videos[0]` (raising a
Python IndexError when the list is empty), then
`client.files.download(...)` and `generated_video.video.save(video_path)`
with `video_path = os.path.join(temp_dir, f"veo3_video_TIMESTAMP.mp4")`.
The `downloadOk` and `saveOk` flags model whether those two remote and
filesystem calls raise. -/
def fetchAndStore (operation : Operation) (timestamp temp_dir : String)
    (downloadOk saveOk : Bool) : Except ServiceError ArtifactRecord :=
  match operation.response.generated_videos with
  | [] => .error .indexError
  | v :: _ =>
    if downloadOk = false then .error .transientServiceError
    else if saveOk = false then .error .transientServiceError
    else .ok { local_path := temp_dir ++ "/" ++ "veo3_video_" ++ timestamp ++ ".mp4",
               size_bytes := v.size_bytes }

/-- The Streamlit session state slots touched by the generation flow
(src/main.py lines 81-86): `video_path`, `generating`, `operation_id`. -/
structure SessionState where
  video_path : Option String
  generating : Bool
  operation_id : Option String
deriving DecidableEq, Repr

/-- What the remote service does during one generation flow: the result of
the initial `client.models.generate_videos` submission, the schedule of
refresh responses for the polling loop, and whether the download and save
calls succeed. -/
structure RemoteBehavior where
  submit : Except ServiceError Operation
  responses : List (Except ServiceError Operation)
  downloadOk : Bool
  saveOk : Bool
deriving Repr

/-- The generation flow of src/main.py lines 90-178 as a state transformer.
Sets `generating := True` (line 90), submits, records `operation_id`
(line 121), polls (lines 132-147), downloads and saves (lines 156-167),
then sets `video_path` and `generating := False` (lines 169-170).  Any
exception is caught at line 175 and the handler sets `generating := False`
(line 176) and touches nothing else.  Returns `none` when the polling loop
never terminates, otherwise the final session state and the caught
exception, if any. -/
def runGeneration (s : SessionState) (env : RemoteBehavior)
    (timestamp temp_dir : String) :
    Option (SessionState × Option ServiceError) :=
  let s1 : SessionState := { s with generating := true }
  match env.submit with
  | .error e => some ({ s1 with generating := false }, some e)
  | .ok op =>
    let s2 : SessionState := { s1 with operation_id := some op.name }
    match (awaitCompletion op env.responses).outcome with
    | .outOfResponses => none
    | .failed e => some ({ s2 with generating := false }, some e)
    | .completed finalOp =>
      match fetchAndStore finalOp timestamp temp_dir env.downloadOk env.saveOk with
      | .error e => some ({ s2 with generating := false }, some e)
      | .ok rec =>
        some ({ s2 with video_path := some rec.local_path, generating := false },
              none)

/-- Whether the generate button is disabled (src/main.py line 73):
`disabled=not (api_key and prompt)`, with Python string truthiness. -/
def generateButtonDisabled (api_key prompt : String) : Bool :=
  !(!(api_key == "") && !(prompt == ""))

/-- Result of one attempt to generate, as observed from outside the
`if generate_btn and api_key and prompt:` block at src/main.py line 89. -/
inductive AttemptResult where
  | notRun
  | ran (finalState : SessionState) (caughtError : Option ServiceError)
  | diverged
deriving DecidableEq, Repr

/-- The guard and body at src/main.py lines 89-178: the generation flow
runs only when the button fired and both `api_key` and `prompt` are
non-empty; otherwise nothing happens at all. -/
def attemptGeneration (generate_btn : Bool) (api_key prompt : String)
    (s : SessionState) (env : RemoteBehavior) (timestamp temp_dir : String) :
    AttemptResult :=
  if generate_btn && !(api_key == "") && !(prompt == "") then
    match runGeneration s env timestamp temp_dir with
    | some (s2, err) => .ran s2 err
    | none => .diverged
  else .notRun

/-- The exception that escaped the flow and was caught, if any. -/
def raisedError : AttemptResult → Option ServiceError
  | .ran _ e => e
  | _ => none

/-- A timed remote job that completes `T` seconds after submission: the
handle observed at time `t` is done exactly when `T ≤ t`. -/
def opAt (T t : Nat) : Operation :=
  { name := "timed-op", done := decide (T ≤ t), response := ⟨[]⟩ }

/-- Refresh schedule for the timed job `opAt T`, starting after iteration
`j`: the `i`-th remaining refresh is served at time `10 * (j + i)`. -/
def timedResponsesFrom (T j : Nat) : Nat → List (Except ServiceError Operation)
  | 0 => []
  | n + 1 => .ok (opAt T (10 * (j + 1))) :: timedResponsesFrom T (j + 1) n

/-- A pending operation handle: not done yet. -/
def pendingOp : Operation :=
  { name := "op-1", done := false, response := ⟨[]⟩ }

/-- The completed operation of the spec scenario: one generated asset of
5,242,880 bytes. -/
def doneOp : Operation :=
  { name := "op-1", done := true, response := ⟨[⟨5242880⟩]⟩ }

/-- The spec scenario's mock remote: refresh returns done=false three
times, then done=true. -/
def scenarioResponses : List (Except ServiceError Operation) :=
  [.ok pendingOp, .ok pendingOp, .ok pendingOp, .ok doneOp]

/-- The polling trace of the spec scenario. -/
def scenarioTrace : PollTrace :=
  awaitCompletion pendingOp scenarioResponses

/-- A fresh session state: nothing generated yet. -/
def state0 : SessionState :=
  { video_path := none, generating := false, operation_id := none }

/-- A remote whose submission call fails at once. -/
def envSubmitFails : RemoteBehavior :=
  { submit := .error .transientServiceError, responses := [],
    downloadOk := true, saveOk := true }

/-- A remote that accepts the submission and completes on the first
refresh, with download and save succeeding. -/
def envQuickSuccess : RemoteBehavior :=
  { submit := .ok pendingOp, responses := [.ok doneOp],
    downloadOk := true, saveOk := true }

/-- Unfolding: the loop exits at once on a done handle. -/
theorem aux_done (op : Operation) (responses : List (Except ServiceError Operation))
    (elapsed : Nat) (hd : op.done = true) :
    awaitCompletionAux op responses elapsed =
      { loopEvents := [], finalEvent := some ⟨elapsed, 1⟩, refreshCalls := 0,
        sleepCalls := 0, doneObserved := [true], outcome := .completed op } := by
  rw [awaitCompletionAux.eq_def]
  simp [hd]

/-- Unfolding: a pending handle with an exhausted schedule. -/
theorem aux_nil (op : Operation) (elapsed : Nat) (hd : op.done = false) :
    awaitCompletionAux op [] elapsed =
      { loopEvents := [⟨elapsed, progressEstimate elapsed⟩], finalEvent := none,
        refreshCalls := 0, sleepCalls := 1, doneObserved := [false],
        outcome := .outOfResponses } := by
  rw [awaitCompletionAux.eq_def]
  simp [hd]

/-- Unfolding: a pending handle whose next refresh raises. -/
theorem aux_error (op : Operation) (e : ServiceError)
    (rest : List (Except ServiceError Operation)) (elapsed : Nat)
    (hd : op.done = false) :
    awaitCompletionAux op (.error e :: rest) elapsed =
      { loopEvents := [⟨elapsed, progressEstimate elapsed⟩], finalEvent := none,
        refreshCalls := 1, sleepCalls := 1, doneObserved := [false],
        outcome := .failed e } := by
  rw [awaitCompletionAux.eq_def]
  simp [hd]

/-- Unfolding: a pending handle whose next refresh yields `op2`. -/
theorem aux_ok (op op2 : Operation)
    (rest : List (Except ServiceError Operation)) (elapsed : Nat)
    (hd : op.done = false) :
    awaitCompletionAux op (.ok op2 :: rest) elapsed =
      { loopEvents := ⟨elapsed, progressEstimate elapsed⟩ ::
          (awaitCompletionAux op2 rest (elapsed + 10)).loopEvents,
        finalEvent := (awaitCompletionAux op2 rest (elapsed + 10)).finalEvent,
        refreshCalls := (awaitCompletionAux op2 rest (elapsed + 10)).refreshCalls + 1,
        sleepCalls := (awaitCompletionAux op2 rest (elapsed + 10)).sleepCalls + 1,
        doneObserved := false :: (awaitCompletionAux op2 rest (elapsed + 10)).doneObserved,
        outcome := (awaitCompletionAux op2 rest (elapsed + 10)).outcome } := by
  rw [awaitCompletionAux.eq_def]
  simp [hd]

/-- Every in-loop progress event carries exactly the heuristic estimate of
its recorded elapsed time. -/
theorem loopEvents_fraction :
    ∀ (responses : List (Except ServiceError Operation)) (op : Operation)
      (elapsed : Nat) (ev : ProgressEvent),
      ev ∈ (awaitCompletionAux op responses elapsed).loopEvents →
      ev.fraction = progressEstimate ev.elapsed := by
  intro responses
  induction responses with
  | nil =>
    intro op elapsed ev hev
    cases hd : op.done <;> simp [aux_done, aux_nil, aux_error, aux_ok, hd] at hev
    subst hev
    rfl
  | cons head rest ih =>
    intro op elapsed ev hev
    cases hd : op.done
    · cases head with
      | error e =>
        simp [aux_done, aux_nil, aux_error, aux_ok, hd] at hev
        subst hev
        rfl
      | ok op2 =>
        simp [aux_done, aux_nil, aux_error, aux_ok, hd] at hev
        rcases hev with hev | hev
        · subst hev
          rfl
        · exact ih op2 (elapsed + 10) ev hev
    · simp [aux_done, aux_nil, aux_error, aux_ok, hd] at hev

/-- The post-loop progress event, when present, has fraction 1. -/
theorem finalEvent_fraction :
    ∀ (responses : List (Except ServiceError Operation)) (op : Operation)
      (elapsed : Nat) (ev : ProgressEvent),
      (awaitCompletionAux op responses elapsed).finalEvent = some ev →
      ev.fraction = 1 := by
  intro responses
  induction responses with
  | nil =>
    intro op elapsed ev hev
    cases hd : op.done <;> simp [aux_done, aux_nil, aux_error, aux_ok, hd] at hev
    subst hev
    rfl
  | cons head rest ih =>
    intro op elapsed ev hev
    cases hd : op.done
    · cases head with
      | error e => simp [aux_done, aux_nil, aux_error, aux_ok, hd] at hev
      | ok op2 =>
        simp [aux_done, aux_nil, aux_error, aux_ok, hd] at hev
        exact ih op2 (elapsed + 10) ev hev
    · simp [aux_done, aux_nil, aux_error, aux_ok, hd] at hev
      subst hev
      rfl

/-- If the polling loop terminated normally, the returned handle is done. -/
theorem outcome_completed_done :
    ∀ (responses : List (Except ServiceError Operation)) (op : Operation)
      (elapsed : Nat) (f : Operation),
      (awaitCompletionAux op responses elapsed).outcome = .completed f →
      f.done = true := by
  intro responses
  induction responses with
  | nil =>
    intro op elapsed f hf
    cases hd : op.done <;> simp [aux_done, aux_nil, aux_error, aux_ok, hd] at hf
    subst hf
    exact hd
  | cons head rest ih =>
    intro op elapsed f hf
    cases hd : op.done
    · cases head with
      | error e => simp [aux_done, aux_nil, aux_error, aux_ok, hd] at hf
      | ok op2 =>
        simp [aux_done, aux_nil, aux_error, aux_ok, hd] at hf
        exact ih op2 (elapsed + 10) f hf
    · simp [aux_done, aux_nil, aux_error, aux_ok, hd] at hf
      subst hf
      exact hd

/-- In a normally terminated run, each loop iteration performed exactly one
refresh call and one sleep: all three per-iteration counts agree. -/
theorem completed_counts :
    ∀ (responses : List (Except ServiceError Operation)) (op : Operation)
      (elapsed : Nat) (f : Operation),
      (awaitCompletionAux op responses elapsed).outcome = .completed f →
      (awaitCompletionAux op responses elapsed).refreshCalls =
        (awaitCompletionAux op responses elapsed).loopEvents.length ∧
      (awaitCompletionAux op responses elapsed).sleepCalls =
        (awaitCompletionAux op responses elapsed).loopEvents.length := by
  intro responses
  induction responses with
  | nil =>
    intro op elapsed f hf
    cases hd : op.done <;> simp [aux_done, aux_nil, aux_error, aux_ok, hd] at hf ⊢
  | cons head rest ih =>
    intro op elapsed f hf
    cases hd : op.done
    · cases head with
      | error e => simp [aux_done, aux_nil, aux_error, aux_ok, hd] at hf
      | ok op2 =>
        simp [aux_done, aux_nil, aux_error, aux_ok, hd] at hf ⊢
        exact ih op2 (elapsed + 10) f hf
    · simp [aux_done, aux_nil, aux_error, aux_ok, hd] at hf ⊢

/-- The observed `operation.done` values of any run are a block of `false`
checks, one per loop iteration, followed by a single `true` exactly when
the loop terminated normally. -/
theorem doneObserved_spec :
    ∀ (responses : List (Except ServiceError Operation)) (op : Operation)
      (elapsed : Nat),
      (awaitCompletionAux op responses elapsed).doneObserved =
        List.replicate (awaitCompletionAux op responses elapsed).loopEvents.length
          false ++
        (match (awaitCompletionAux op responses elapsed).outcome with
          | .completed _ => [true]
          | _ => []) := by
  intro responses
  induction responses with
  | nil =>
    intro op elapsed
    cases hd : op.done <;> simp [aux_done, aux_nil, aux_error, aux_ok, hd]
  | cons head rest ih =>
    intro op elapsed
    cases hd : op.done
    · cases head with
      | error e => simp [aux_done, aux_nil, aux_error, aux_ok, hd]
      | ok op2 =>
        simp [aux_done, aux_nil, aux_error, aux_ok, hd, List.replicate_succ]
        exact ih op2 (elapsed + 10)
    · simp [aux_done, aux_nil, aux_error, aux_ok, hd]

/-- Driving the timed job `opAt T` with enough refreshes: the loop
terminates normally and performs one refresh per 10-second step until the
first check at or past `T`, i.e. `ceil((T - 10j) / 10)` refreshes when
starting after iteration `j`. -/
theorem timed_refreshCalls :
    ∀ (n j T : Nat), T ≤ 10 * (j + n) →
      (∃ f, (awaitCompletionAux (opAt T (10 * j)) (timedResponsesFrom T j n)
          (10 * j)).outcome = PollOutcome.completed f) ∧
      (awaitCompletionAux (opAt T (10 * j)) (timedResponsesFrom T j n)
          (10 * j)).refreshCalls = (T - 10 * j + 9) / 10 := by
  intro n
  induction n with
  | zero =>
    intro j T h
    have hj : T ≤ 10 * j := by omega
    have hd : (opAt T (10 * j)).done = true := by
      simp [opAt, hj]
    refine ⟨⟨opAt T (10 * j), ?_⟩, ?_⟩
    · simp [timedResponsesFrom, aux_done _ _ _ hd]
    · simp [timedResponsesFrom, aux_done _ _ _ hd]
      omega
  | succ n ih =>
    intro j T h
    by_cases hj : T ≤ 10 * j
    · have hd : (opAt T (10 * j)).done = true := by
        simp [opAt, hj]
      refine ⟨⟨opAt T (10 * j), ?_⟩, ?_⟩
      · simp [timedResponsesFrom, aux_done _ _ _ hd]
      · simp [timedResponsesFrom, aux_done _ _ _ hd]
        omega
    · have hd : (opAt T (10 * j)).done = false := by
        simp [opAt]
        omega
      have he : 10 * j + 10 = 10 * (j + 1) := by ring
      have h1 : T ≤ 10 * ((j + 1) + n) := by omega
      obtain ⟨⟨f, hf⟩, hr⟩ := ih (j + 1) T h1
      constructor
      · refine ⟨f, ?_⟩
        rw [timedResponsesFrom, aux_ok _ _ _ _ hd]
        simpa [he] using hf
      · rw [timedResponsesFrom, aux_ok _ _ _ _ hd]
        simp only [he]
        rw [hr]
        omega

/-- If every handle seen so far is pending and the `(k+1)`-st refresh
raises `e`, the loop aborts with `e` after exactly `k+1` refreshes and
`k+1` sleeps, emits no final event, and never touches the remainder of
the schedule. -/
theorem failed_propagation :
    ∀ (ops : List Operation) (op : Operation) (elapsed : Nat)
      (e : ServiceError) (rest : List (Except ServiceError Operation)),
      op.done = false → (∀ o ∈ ops, o.done = false) →
      (awaitCompletionAux op (ops.map Except.ok ++ Except.error e :: rest)
          elapsed).outcome = PollOutcome.failed e ∧
      (awaitCompletionAux op (ops.map Except.ok ++ Except.error e :: rest)
          elapsed).refreshCalls = ops.length + 1 ∧
      (awaitCompletionAux op (ops.map Except.ok ++ Except.error e :: rest)
          elapsed).sleepCalls = ops.length + 1 ∧
      (awaitCompletionAux op (ops.map Except.ok ++ Except.error e :: rest)
          elapsed).finalEvent = none := by
  intro ops
  induction ops with
  | nil =>
    intro op elapsed e rest hd _
    simp [aux_error _ _ _ _ hd]
  | cons o ops ih =>
    intro op elapsed e rest hd hops
    have ho : o.done = false := hops o (by simp)
    have hops2 : ∀ x ∈ ops, x.done = false := fun x hx => hops x (by simp [hx])
    obtain ⟨h1, h2, h3, h4⟩ := ih o (elapsed + 10) e rest ho hops2
    simp [aux_ok _ _ _ _ hd, h1, h2, h3, h4]

/-- C1: every progress fraction emitted inside the polling loop equals
elapsed/60 clipped to a maximum of 0.9 when elapsed is below 60 seconds,
equals 0.9 when elapsed is at least 60 seconds, and the final progress
emitted after the loop exits is exactly 1. -/
theorem progress_fraction_formula (op : Operation)
    (responses : List (Except ServiceError Operation)) :
    (∀ ev ∈ (awaitCompletion op responses).loopEvents,
      (ev.elapsed < 60 → ev.fraction = min ((ev.elapsed : ℚ) / 60) (9 / 10)) ∧
      (60 ≤ ev.elapsed → ev.fraction = 9 / 10)) ∧
    (∀ ev, (awaitCompletion op responses).finalEvent = some ev →
      ev.fraction = 1) := by
  constructor
  · intro ev hev
    have h := loopEvents_fraction responses op 0 ev hev
    constructor
    · intro hlt
      rw [h]
      unfold progressEstimate
      rw [if_pos hlt]
    · intro hge
      rw [h]
      unfold progressEstimate
      rw [if_neg (by omega)]
  · intro ev hev
    exact finalEvent_fraction responses op 0 ev hev

/-- C1 witness: in the run where the job completes on the first refresh,
the one in-loop event is emitted at elapsed 0 with fraction 0, which is
min(0/60, 9/10). -/
theorem progress_fraction_formula_witness :
    ((⟨0, 0⟩ : ProgressEvent) ∈
      (awaitCompletion pendingOp [Except.ok doneOp]).loopEvents) ∧
    ((⟨0, 0⟩ : ProgressEvent).fraction =
      min (((⟨0, 0⟩ : ProgressEvent).elapsed : ℚ) / 60) (9 / 10)) := by
  have hmem : (⟨0, 0⟩ : ProgressEvent) ∈
      (awaitCompletion pendingOp [Except.ok doneOp]).loopEvents := by
    norm_num [awaitCompletion, awaitCompletionAux, pendingOp, doneOp,
      progressEstimate]
  exact ⟨hmem,
    ((progress_fraction_formula pendingOp [Except.ok doneOp]).1 ⟨0, 0⟩ hmem).1
      (by norm_num)⟩

/-- C2 counterexample: on the spec scenario (refresh returns done=false
three times, then done=true), the poller emits 5 progress events, not 4 —
the loop's first iteration emits an extra event at elapsed 0 with
fraction 0. -/
theorem scenario_emits_five_events :
    (emittedEvents scenarioTrace).length = 5 ∧
    (emittedEvents scenarioTrace).length ≠ 4 := by
  decide

/-- C2 amended: on the spec scenario the poller emits 5 progress events,
with fractions 0, 1/6 (~0.167), 1/3 (~0.333), 1/2 (0.5), then 1.0, and
the fetch step returns an artifact record with size 5242880 bytes. -/
theorem scenario_trace_and_fetch :
    emittedEvents scenarioTrace =
      [⟨0, 0⟩, ⟨10, 1/6⟩, ⟨20, 1/3⟩, ⟨30, 1/2⟩, ⟨40, 1⟩] ∧
    ∃ r, fetchAndStore doneOp "ts" "/tmp" true true = Except.ok r ∧
      r.size_bytes = 5242880 := by
  constructor
  · norm_num [emittedEvents, scenarioTrace, scenarioResponses, awaitCompletion,
      awaitCompletionAux, pendingOp, doneOp, progressEstimate]
  · exact ⟨⟨"/tmp" ++ "/" ++ "veo3_video_" ++ "ts" ++ ".mp4", 5242880⟩, rfl, rfl⟩

/-- C3: whenever the polling loop returns (reaches its post-loop code),
the handle it carries is done. -/
theorem awaitCompletion_done_on_return (op : Operation)
    (responses : List (Except ServiceError Operation)) (f : Operation)
    (h : (awaitCompletion op responses).outcome = PollOutcome.completed f) :
    f.done = true :=
  outcome_completed_done responses op 0 f h

/-- C3 witness: a concrete completing run returns a done handle. -/
theorem awaitCompletion_done_on_return_witness : doneOp.done = true :=
  awaitCompletion_done_on_return pendingOp [Except.ok doneOp] doneOp (by decide)

/-- C4: polling a job that completes `T` seconds after submission, the
loop terminates, performs exactly one refresh call and one 10-second
sleep per iteration, and runs ceil(T / 10) iterations. -/
theorem awaitCompletion_iteration_count (T n : Nat) (h : T ≤ 10 * n) :
    (∃ f, (awaitCompletion (opAt T 0) (timedResponsesFrom T 0 n)).outcome =
        PollOutcome.completed f) ∧
    (awaitCompletion (opAt T 0) (timedResponsesFrom T 0 n)).refreshCalls =
      (T + 9) / 10 ∧
    (awaitCompletion (opAt T 0) (timedResponsesFrom T 0 n)).sleepCalls =
      (awaitCompletion (opAt T 0) (timedResponsesFrom T 0 n)).refreshCalls ∧
    (awaitCompletion (opAt T 0) (timedResponsesFrom T 0 n)).loopEvents.length =
      (awaitCompletion (opAt T 0) (timedResponsesFrom T 0 n)).refreshCalls := by
  have h0 : T ≤ 10 * (0 + n) := by omega
  have H := timed_refreshCalls n 0 T h0
  rw [Nat.mul_zero, Nat.sub_zero] at H
  obtain ⟨⟨f, hf⟩, hr⟩ := H
  have hc := completed_counts (timedResponsesFrom T 0 n) (opAt T 0) 0 f hf
  exact ⟨⟨f, hf⟩, hr, by rw [awaitCompletion, hc.2, hc.1],
    by rw [awaitCompletion, hc.1]⟩

/-- C4 witness: a job completing after 25 seconds is polled for
ceil(25/10) = 3 iterations. -/
theorem awaitCompletion_iteration_count_witness :
    (∃ f, (awaitCompletion (opAt 25 0) (timedResponsesFrom 25 0 3)).outcome =
        PollOutcome.completed f) ∧
    (awaitCompletion (opAt 25 0) (timedResponsesFrom 25 0 3)).refreshCalls =
      (25 + 9) / 10 ∧
    (awaitCompletion (opAt 25 0) (timedResponsesFrom 25 0 3)).sleepCalls =
      (awaitCompletion (opAt 25 0) (timedResponsesFrom 25 0 3)).refreshCalls ∧
    (awaitCompletion (opAt 25 0) (timedResponsesFrom 25 0 3)).loopEvents.length =
      (awaitCompletion (opAt 25 0) (timedResponsesFrom 25 0 3)).refreshCalls :=
  awaitCompletion_iteration_count 25 3 (by decide)

/-- C5: if a refresh raises, the loop aborts at that refresh with the
raised exception, performing no further refresh, no further sleep, and
emitting no final progress event, regardless of what the remote would
have answered later. -/
theorem awaitCompletion_error_propagation (op : Operation)
    (ops : List Operation) (e : ServiceError)
    (rest : List (Except ServiceError Operation))
    (hop : op.done = false) (hops : ∀ o ∈ ops, o.done = false) :
    (awaitCompletion op (ops.map Except.ok ++ Except.error e :: rest)).outcome =
      PollOutcome.failed e ∧
    (awaitCompletion op
      (ops.map Except.ok ++ Except.error e :: rest)).refreshCalls =
      ops.length + 1 ∧
    (awaitCompletion op
      (ops.map Except.ok ++ Except.error e :: rest)).sleepCalls =
      ops.length + 1 ∧
    (awaitCompletion op
      (ops.map Except.ok ++ Except.error e :: rest)).finalEvent = none :=
  failed_propagation ops op 0 e rest hop hops

/-- C5 witness: a TransientServiceError raised on the second poll aborts
the loop after exactly 2 refreshes and 2 sleeps, even though a later
response was available. -/
theorem awaitCompletion_error_propagation_witness :
    (awaitCompletion pendingOp
      ([pendingOp].map Except.ok ++
        Except.error ServiceError.transientServiceError ::
          [Except.ok doneOp])).outcome =
      PollOutcome.failed ServiceError.transientServiceError ∧
    (awaitCompletion pendingOp
      ([pendingOp].map Except.ok ++
        Except.error ServiceError.transientServiceError ::
          [Except.ok doneOp])).refreshCalls = [pendingOp].length + 1 ∧
    (awaitCompletion pendingOp
      ([pendingOp].map Except.ok ++
        Except.error ServiceError.transientServiceError ::
          [Except.ok doneOp])).sleepCalls = [pendingOp].length + 1 ∧
    (awaitCompletion pendingOp
      ([pendingOp].map Except.ok ++
        Except.error ServiceError.transientServiceError ::
          [Except.ok doneOp])).finalEvent = none :=
  awaitCompletion_error_propagation pendingOp [pendingOp]
    ServiceError.transientServiceError [Except.ok doneOp] (by decide) (by decide)

/-- C6: on a completed handle whose result has zero assets, the code's
`generated_videos[0]` raises a Python IndexError, not the
EmptyResultError the spec requires — the spec marks this as a latent bug
in the code. -/
theorem fetchAndStore_empty_raises_indexError :
    fetchAndStore { name := "op-empty", done := true, response := ⟨[]⟩ }
        "ts" "/tmp" true true = Except.error ServiceError.indexError ∧
    ServiceError.indexError ≠ ServiceError.emptyResultError :=
  ⟨rfl, by decide⟩

/-- C7 counterexample: submitting with an empty prompt does not raise a
ValidationError — the guard at src/main.py line 89 simply skips the whole
generation block, so nothing runs and nothing is raised. -/
theorem empty_prompt_no_validation_error :
    attemptGeneration true "AIz" "" state0 envQuickSuccess "ts" "/tmp" =
      AttemptResult.notRun ∧
    raisedError
      (attemptGeneration true "AIz" "" state0 envQuickSuccess "ts" "/tmp") ≠
      some ServiceError.validationError := by
  decide

/-- C7 amended: with an empty prompt the generate button is disabled and
the generation flow never runs, so no network call is made and no
exception is raised. -/
theorem empty_prompt_flow_not_run (generate_btn : Bool) (api_key : String)
    (s : SessionState) (env : RemoteBehavior) (timestamp temp_dir : String) :
    attemptGeneration generate_btn api_key "" s env timestamp temp_dir =
      AttemptResult.notRun ∧
    generateButtonDisabled api_key "" = true := by
  constructor
  · simp [attemptGeneration]
  · simp [generateButtonDisabled]

/-- C8: in every terminating run, the observed `done` values are a block
of `false` checks — one per refresh performed — followed by a single
`true`, so `done` flips false→true exactly once and no refresh happens
after `true` is observed. -/
theorem doneObserved_monotone (op : Operation)
    (responses : List (Except ServiceError Operation)) (f : Operation)
    (h : (awaitCompletion op responses).outcome = PollOutcome.completed f) :
    (awaitCompletion op responses).doneObserved =
      List.replicate (awaitCompletion op responses).refreshCalls false ++
        [true] := by
  simp only [awaitCompletion] at h ⊢
  have hs := doneObserved_spec responses op 0
  have hc := completed_counts responses op 0 f h
  rw [hs, h, hc.1]

/-- C8 witness: the concrete completing run observes [false, true]. -/
theorem doneObserved_monotone_witness :
    (awaitCompletion pendingOp [Except.ok doneOp]).doneObserved =
      List.replicate (awaitCompletion pendingOp [Except.ok doneOp]).refreshCalls
        false ++ [true] :=
  doneObserved_monotone pendingOp [Except.ok doneOp] doneOp (by decide)

/-- C9: every terminated generation flow — success or caught exception —
ends with the session flag `generating` set to false. -/
theorem generating_false_after_flow (s : SessionState) (env : RemoteBehavior)
    (timestamp temp_dir : String) (r : SessionState × Option ServiceError)
    (h : runGeneration s env timestamp temp_dir = some r) :
    r.1.generating = false := by
  cases henv : env.submit with
  | error e =>
    simp only [runGeneration, henv, Option.some.injEq] at h
    subst h
    rfl
  | ok op =>
    cases hout : (awaitCompletion op env.responses).outcome with
    | outOfResponses =>
      simp only [runGeneration, henv, hout] at h
      exact absurd h (by simp)
    | failed e =>
      simp only [runGeneration, henv, hout, Option.some.injEq] at h
      subst h
      rfl
    | completed f =>
      cases hfetch : fetchAndStore f timestamp temp_dir env.downloadOk
          env.saveOk with
      | error e =>
        simp only [runGeneration, henv, hout, hfetch, Option.some.injEq] at h
        subst h
        rfl
      | ok rec =>
        simp only [runGeneration, henv, hout, hfetch, Option.some.injEq] at h
        subst h
        rfl

/-- C9 witness: a flow whose submission fails ends with generating false. -/
theorem generating_false_after_flow_witness :
    ((state0, some ServiceError.transientServiceError) :
      SessionState × Option ServiceError).1.generating = false :=
  generating_false_after_flow state0 envSubmitFails "ts" "/tmp"
    (state0, some ServiceError.transientServiceError) rfl

/-- C10: if the flow terminates with a caught exception, `video_path` is
unchanged; and `video_path` changes only when no exception occurred, the
handle completed, and the fetch step fully saved the new artifact, whose
path it then carries. -/
theorem video_path_preserved_on_error (s : SessionState) (env : RemoteBehavior)
    (timestamp temp_dir : String) (s2 : SessionState)
    (err : Option ServiceError)
    (h : runGeneration s env timestamp temp_dir = some (s2, err)) :
    (err.isSome = true → s2.video_path = s.video_path) ∧
    (s2.video_path ≠ s.video_path →
      err = none ∧ ∃ op f r, env.submit = Except.ok op ∧
        (awaitCompletion op env.responses).outcome = PollOutcome.completed f ∧
        fetchAndStore f timestamp temp_dir env.downloadOk env.saveOk =
          Except.ok r ∧
        s2.video_path = some r.local_path) := by
  cases henv : env.submit with
  | error e =>
    simp only [runGeneration, henv, Option.some.injEq, Prod.mk.injEq] at h
    obtain ⟨h1, h2⟩ := h
    subst h1
    subst h2
    exact ⟨fun _ => rfl, fun hne => absurd rfl hne⟩
  | ok op =>
    cases hout : (awaitCompletion op env.responses).outcome with
    | outOfResponses =>
      simp only [runGeneration, henv, hout] at h
      exact absurd h (by simp)
    | failed e =>
      simp only [runGeneration, henv, hout, Option.some.injEq,
        Prod.mk.injEq] at h
      obtain ⟨h1, h2⟩ := h
      subst h1
      subst h2
      exact ⟨fun _ => rfl, fun hne => absurd rfl hne⟩
    | completed f =>
      cases hfetch : fetchAndStore f timestamp temp_dir env.downloadOk
          env.saveOk with
      | error e =>
        simp only [runGeneration, henv, hout, hfetch, Option.some.injEq,
          Prod.mk.injEq] at h
        obtain ⟨h1, h2⟩ := h
        subst h1
        subst h2
        exact ⟨fun _ => rfl, fun hne => absurd rfl hne⟩
      | ok rec =>
        simp only [runGeneration, henv, hout, hfetch, Option.some.injEq,
          Prod.mk.injEq] at h
        obtain ⟨h1, h2⟩ := h
        subst h1
        subst h2
        refine ⟨fun habs => absurd habs (by simp), fun _ => ?_⟩
        exact ⟨rfl, op, f, rec, rfl, hout, hfetch, rfl⟩

/-- C10 witness: in a flow whose submission fails, `video_path` stays as
it was. -/
theorem video_path_preserved_on_error_witness :
    ((some ServiceError.transientServiceError).isSome = true →
      state0.video_path = state0.video_path) ∧
    (state0.video_path ≠ state0.video_path →
      (some ServiceError.transientServiceError : Option ServiceError) = none ∧
      ∃ op f r, envSubmitFails.submit = Except.ok op ∧
        (awaitCompletion op envSubmitFails.responses).outcome =
          PollOutcome.completed f ∧
        fetchAndStore f "ts" "/tmp" envSubmitFails.downloadOk
          envSubmitFails.saveOk = Except.ok r ∧
        state0.video_path = some r.local_path) :=
  video_path_preserved_on_error state0 envSubmitFails "ts" "/tmp" state0
    (some ServiceError.transientServiceError) rfl

end Ved
